import Mathlib

/-
  Shallow embedding of src/winble/winble.cpp (SpheroPy Windows BLE backend).

  Strings of the C++ code (std::string) are modelled as List Char; byte
  buffers as List Nat (each entry one byte).  The asynchronous WinRT calls
  are modelled by recording, on each characteristic, the status the platform
  returns for the corresponding operation, and a trace of the platform calls
  a function performs.
-/

namespace WinBle

/-! ## AddressCodec: MacAddressStringToUint (winble.cpp lines 35-42) -/

-- On the target platform of this code (MSVC / Windows, the only platform
-- the WinRT headers compile on), unsigned long is 32 bits wide (LLP64),
-- so strtoul clamps to 2^32 - 1 on overflow.
def ULONG_MAX : Nat := 4294967295

-- C isspace in the default locale: space, \t, \n, vertical tab, form feed, \r.
def isSpaceC (c : Char) : Bool :=
  c = ' ' || c = '\t' || c = '\n' || c = Char.ofNat 11 || c = Char.ofNat 12 || c = '\r'

-- Value of a hexadecimal digit character, none when the character is not one.
def hexVal? (c : Char) : Option Nat :=
  if 48 ≤ c.toNat ∧ c.toNat ≤ 57 then some (c.toNat - 48)
  else if 97 ≤ c.toNat ∧ c.toNat ≤ 102 then some (c.toNat - 87)
  else if 65 ≤ c.toNat ∧ c.toNat ≤ 70 then some (c.toNat - 55)
  else none

-- Longest leading run of hexadecimal digits, as digit values.
def takeHexDigits : List Char → List Nat
  | [] => []
  | c :: cs =>
    match hexVal? c with
    | some d => d :: takeHexDigits cs
    | none => []

def hexValue (ds : List Nat) : Nat := ds.foldl (fun a d => 16 * a + d) 0

-- strtoul with base 16 skips a 0x / 0X base marker when a hexadecimal digit
-- follows it (when none does, the subject sequence is just the initial 0 and
-- the converted value is 0 either way).
def dropHexBase : List Char → List Char
  | '0' :: 'x' :: c :: cs => if (hexVal? c).isSome then c :: cs else '0' :: 'x' :: c :: cs
  | '0' :: 'X' :: c :: cs => if (hexVal? c).isSome then c :: cs else '0' :: 'X' :: c :: cs
  | cs => cs

-- Conversion after the optional sign: greedy hexadecimal digits, value
-- clamped to ULONG_MAX on overflow (C17 7.22.1.4); a minus sign negates the
-- in-range value in the unsigned return type.
def strtoulCore (cs : List Char) (neg : Bool) : Nat :=
  let v := hexValue (takeHexDigits (dropHexBase cs))
  if v > ULONG_MAX then ULONG_MAX
  else if neg then (4294967296 - v) % 4294967296
  else v

-- strtoul(s, NULL, 16) on the target platform: skip leading white space,
-- optional sign, optional base marker, digits; 0 when no digits convert.
def strtoul16 (cs : List Char) : Nat :=
  match cs.dropWhile isSpaceC with
  | '-' :: rest => strtoulCore rest true
  | '+' :: rest => strtoulCore rest false
  | rest => strtoulCore rest false

-- macAddress.erase(std::remove(begin, end, colon), end) removes every colon.
def stripColons (cs : List Char) : List Char :=
  cs.filter (fun c => decide (c ≠ ':'))

-- uint64_t MacAddressStringToUint(std::string macAddress), winble.cpp 35-42:
-- remove colons, then return strtoul(macAddress.c_str(), NULL, 16) widened
-- to uint64_t (value preserving).
def MacAddressStringToUint (macAddress : List Char) : Nat :=
  strtoul16 (stripColons macAddress)

/-! ## AddressCodec: BytesToGuid (winble.cpp lines 56-65) -/

-- The platform GUID record: Data1 (32 bits), Data2, Data3 (16 bits each)
-- and Data4, a fixed array of 8 bytes, modelled as 8 fields.
structure Guid where
  data1 : Nat
  data2 : Nat
  data3 : Nat
  data4_0 : Nat
  data4_1 : Nat
  data4_2 : Nat
  data4_3 : Nat
  data4_4 : Nat
  data4_5 : Nat
  data4_6 : Nat
  data4_7 : Nat
deriving DecidableEq

-- guid BytesToGuid(const std::string&), winble.cpp 56-65: the bytes are fed
-- to a DataWriter, read back with DataReader.ReadGuid (default byte order of
-- DataReader is big endian, so Data1/Data2/Data3 are loaded big endian and
-- Data4 takes bytes 8..15 in order; fewer than 16 bytes makes ReadGuid
-- throw, modelled as none; extra bytes are left unread), and then
-- std::reverse flips Data4.
def BytesToGuid : List Nat → Option Guid
  | b0 :: b1 :: b2 :: b3 :: b4 :: b5 :: b6 :: b7 ::
    b8 :: b9 :: b10 :: b11 :: b12 :: b13 :: b14 :: b15 :: _ =>
    some
      { data1 := ((b0 * 256 + b1) * 256 + b2) * 256 + b3
        data2 := b4 * 256 + b5
        data3 := b6 * 256 + b7
        data4_0 := b15
        data4_1 := b14
        data4_2 := b13
        data4_3 := b12
        data4_4 := b11
        data4_5 := b10
        data4_6 := b9
        data4_7 := b8 }
  | _ => none

/-- Modelled from the spec: EncodeUuid, the exact inverse of DecodeUuid
(BytesToGuid).  It is not part of src/winble/winble.cpp: the Python caller
builds the 16-byte characteristic identifiers that BytesToGuid decodes.
Following the spec, it emits the GUID fields in the layout BytesToGuid
loads, with the last 8 bytes in reversed order. -/
def EncodeUuid (g : Guid) : List Nat :=
  [g.data1 / 16777216 % 256, g.data1 / 65536 % 256, g.data1 / 256 % 256, g.data1 % 256,
   g.data2 / 256 % 256, g.data2 % 256,
   g.data3 / 256 % 256, g.data3 % 256,
   g.data4_7, g.data4_6, g.data4_5, g.data4_4, g.data4_3, g.data4_2, g.data4_1, g.data4_0]

/-! ## GATT model: statuses, characteristics, services -/

-- winrt GattCommunicationStatus.
inductive GattCommunicationStatus where
  | success
  | unreachable
  | protocolError
  | accessDenied
deriving DecidableEq

-- static_cast<int>(status), used in the write failure message.
def GattCommunicationStatus.code : GattCommunicationStatus → Nat
  | .success => 0
  | .unreachable => 1
  | .protocolError => 2
  | .accessDenied => 3

-- A discovered platform characteristic.  The two status fields record the
-- response the platform gives this characteristic for WriteValueAsync and
-- for WriteClientCharacteristicConfigurationDescriptorAsync(Notify): the
-- asynchronous calls the code awaits with .get().
structure GattCharacteristic where
  uuid : Guid
  writeValueStatus : GattCommunicationStatus
  writeCccdStatus : GattCommunicationStatus
deriving DecidableEq

-- One GATT service as GetCharacteristicsAsync reports it: the communication
-- status of that call and, on success, its characteristics.
structure GattService where
  charsStatus : GattCommunicationStatus
  characteristics : List GattCharacteristic
deriving DecidableEq

-- A connected BluetoothLEDevice as GetGattServicesAsync reports it.
structure BluetoothLEDevice where
  servicesStatus : GattCommunicationStatus
  services : List GattService
deriving DecidableEq

/-! ## GetCharacteristics (winble.cpp lines 67-99) and the WinBleDevice
     constructor (lines 101-110) -/

-- The service loop of GetCharacteristics: for each service, a non-success
-- GetCharacteristicsAsync status throws std::exception (modelled as error),
-- otherwise the characteristics are appended to the accumulated list.
def collectCharacteristics : List GattService → Except Unit (List GattCharacteristic)
  | [] => .ok []
  | s :: rest =>
    if s.charsStatus = GattCommunicationStatus.success then
      match collectCharacteristics rest with
      | .ok cs => .ok (s.characteristics ++ cs)
      | .error e => .error e
    else .error ()

-- std::vector<GattCharacteristic> GetCharacteristics(device), lines 67-99:
-- a non-success GetGattServicesAsync status throws before the loop runs.
def GetCharacteristics (d : BluetoothLEDevice) : Except Unit (List GattCharacteristic) :=
  if d.servicesStatus = GattCommunicationStatus.success then
    collectCharacteristics d.services
  else .error ()

-- The session state: the characteristic cache m_characteristics, plus the
-- list of ValueChanged delegates currently registered on the platform event
-- sources (each entry: event source uuid and the registered handler, the
-- handler identified by a number).  The winrt event add method appends a
-- delegate and returns an event token; Subscribe keeps the token in a local
-- and discards it.
structure WinBleDevice where
  characteristics : List GattCharacteristic
  valueChangedHandlers : List (Guid × Nat)
deriving DecidableEq

-- WinBleDevice::WinBleDevice(BluetoothLEDevice&&), lines 101-110: the
-- constructor runs GetCharacteristics; a throw propagates and no object is
-- constructed.  A fresh session has no registered delegates.
def mkWinBleDevice (d : BluetoothLEDevice) : Except Unit WinBleDevice :=
  match GetCharacteristics d with
  | .ok cs => .ok { characteristics := cs, valueChangedHandlers := [] }
  | .error e => .error e

/-! ## WriteToCharacteristic (lines 112-141) and Subscribe (lines 143-188) -/

-- The exceptions the member functions throw.
inductive BleError where
  | invalidUuid
  | characteristicNotFound
  | writeFailed (code : Nat)
  | descriptorWriteFailed
deriving DecidableEq

-- The platform calls a member function can issue against the device.
inductive PlatformAction where
  | writeValue (u : Guid) (data : List Nat)
  | writeCccdNotify (u : Guid)
  | registerValueChanged (u : Guid)
deriving DecidableEq

-- Result of one member-function call: the session state afterwards (a C++
-- exception leaves the object unchanged), the exception if one was thrown,
-- and the trace of platform calls issued, in order.
structure CallResult where
  dev : WinBleDevice
  err : Option BleError
  trace : List PlatformAction
deriving DecidableEq

-- std::find_if over m_characteristics comparing the decoded guid with
-- characteristic.Uuid(): the first match, if any.
def findCharacteristic (cs : List GattCharacteristic) (g : Guid) : Option GattCharacteristic :=
  cs.find? (fun c => decide (c.uuid = g))

-- void WriteToCharacteristic(characteristicId, data), lines 112-141.
-- The DataWriter filling is local buffer work; the platform is touched only
-- by WriteValueAsync.  Order: decode the guid (ReadGuid throws on a short
-- id), look the characteristic up (end() means throw, no platform write),
-- then await WriteValueAsync and throw on a non-success status, the message
-- carrying static_cast<int>(result).
def WriteToCharacteristic (d : WinBleDevice) (characteristicId : List Nat)
    (data : List Nat) : CallResult :=
  match BytesToGuid characteristicId with
  | none => ⟨d, some BleError.invalidUuid, []⟩
  | some g =>
    match findCharacteristic d.characteristics g with
    | none => ⟨d, some BleError.characteristicNotFound, []⟩
    | some c =>
      if c.writeValueStatus = GattCommunicationStatus.success then
        ⟨d, none, [PlatformAction.writeValue g data]⟩
      else
        ⟨d, some (BleError.writeFailed c.writeValueStatus.code),
          [PlatformAction.writeValue g data]⟩

-- void Subscribe(characteristicId, eventHandler), lines 143-188.  An empty
-- std::function (none) returns at once.  Otherwise: decode the guid, look
-- the characteristic up (throw at end()), await the Notify descriptor
-- write, throw on non-success, and only then call ValueChanged, the winrt
-- event add method, which appends a delegate to the event source and
-- returns a token the function discards.
def Subscribe (d : WinBleDevice) (characteristicId : List Nat)
    (eventHandler : Option Nat) : CallResult :=
  match eventHandler with
  | none => ⟨d, none, []⟩
  | some h =>
    match BytesToGuid characteristicId with
    | none => ⟨d, some BleError.invalidUuid, []⟩
    | some g =>
      match findCharacteristic d.characteristics g with
      | none => ⟨d, some BleError.characteristicNotFound, []⟩
      | some c =>
        if c.writeCccdStatus = GattCommunicationStatus.success then
          ⟨{ d with valueChangedHandlers := d.valueChangedHandlers ++ [(g, h)] },
            none,
            [PlatformAction.writeCccdNotify g, PlatformAction.registerValueChanged g]⟩
        else
          ⟨d, some BleError.descriptorWriteFailed, [PlatformAction.writeCccdNotify g]⟩

-- Number of ValueChanged delegates registered for one characteristic uuid.
def handlerCount (d : WinBleDevice) (g : Guid) : Nat :=
  (d.valueChangedHandlers.filter (fun p => decide (p.1 = g))).length

/-! ## WinBleAdapter (lines 201-349) -/

-- A DeviceInformation entry of m_nearbyDevices: platform id (Id()), Name()
-- and the System.Devices.Aep.DeviceAddress property.
structure DeviceInformation where
  id : List Char
  name : List Char
  address : List Char
deriving DecidableEq

-- std::string GetDeviceAddress(const DeviceInformation&), lines 30-33:
-- looks the DeviceAddress property up.
def GetDeviceAddress (di : DeviceInformation) : List Char := di.address

-- winrt DeviceWatcherStatus.
inductive DeviceWatcherStatus where
  | created
  | started
  | enumerationCompleted
  | stopping
  | stopped
  | aborted
deriving DecidableEq

-- Adapter state: the watcher status, how many event-handler registrations
-- Start has made on the watcher (four per non-idempotent call), and the
-- m_nearbyDevices table (the unordered_set modelled as a list in iteration
-- order).
structure WinBleAdapter where
  watcherStatus : DeviceWatcherStatus
  registeredHandlerCount : Nat
  nearbyDevices : List DeviceInformation
deriving DecidableEq

-- The externally visible actions of one Start call.
inductive AdapterAction where
  | registerAddedHandler
  | registerUpdatedHandler
  | registerRemovedHandler
  | registerEnumCompletedHandler
  | startWatcher
deriving DecidableEq

-- void Start(), lines 215-287: return at once when the watcher status is
-- already Started; otherwise register the four event handlers and then
-- start the watcher (which moves it to the Started state).
def Start (a : WinBleAdapter) : WinBleAdapter × List AdapterAction :=
  if a.watcherStatus = DeviceWatcherStatus.started then (a, [])
  else
    ({ a with
        registeredHandlerCount := a.registeredHandlerCount + 4,
        watcherStatus := DeviceWatcherStatus.started },
      [AdapterAction.registerAddedHandler, AdapterAction.registerUpdatedHandler,
       AdapterAction.registerRemovedHandler, AdapterAction.registerEnumCompletedHandler,
       AdapterAction.startWatcher])

-- The Removed event handler, lines 257-274: it erases the result of
-- std::find_if from the unordered_set with no end() check.  When no entry
-- matches, unordered_set::erase receives the end iterator, which violates
-- the erase precondition (a valid dereferenceable iterator): undefined
-- behaviour, modelled as none.  (Contrast the Updated handler, lines
-- 235-255, which does compare against cend() before acting.)
def removedHandler (nearby : List DeviceInformation)
    (removedId : List Char) : Option (List DeviceInformation) :=
  match nearby.findIdx? (fun di => decide (di.id = removedId)) with
  | some i => some (nearby.eraseIdx i)
  | none => none

-- The two ways Connect reaches the platform.
inductive ConnectPath where
  | fromId (id : List Char)
  | fromBluetoothAddress (addr : Nat)
deriving DecidableEq

-- WinBleDevice Connect(std::string address), lines 312-339: find_if over
-- m_nearbyDevices comparing GetDeviceAddress with the argument; on a match,
-- BluetoothLEDevice.FromIdAsync with the Id() of the found record,
-- otherwise BluetoothLEDevice.FromBluetoothAddressAsync with
-- MacAddressStringToUint(address).
def Connect (nearby : List DeviceInformation) (address : List Char) : ConnectPath :=
  match nearby.find? (fun di => decide (GetDeviceAddress di = address)) with
  | some di => ConnectPath.fromId di.id
  | none => ConnectPath.fromBluetoothAddress (MacAddressStringToUint address)

/-! ## Concrete fixtures (test doubles used by the witnesses) -/

def guid0 : Guid := ⟨18, 52, 86, 1, 2, 3, 4, 5, 6, 7, 8⟩

def cid0 : List Nat := EncodeUuid guid0

def char0 : GattCharacteristic :=
  ⟨guid0, GattCommunicationStatus.success, GattCommunicationStatus.success⟩

def dev0 : WinBleDevice := ⟨[char0], []⟩

def guid1 : Guid := ⟨9, 9, 9, 0, 0, 0, 0, 0, 0, 0, 1⟩

def cid1 : List Nat := EncodeUuid guid1

def charBad : GattCharacteristic :=
  ⟨guid1, GattCommunicationStatus.protocolError, GattCommunicationStatus.unreachable⟩

def devBad : WinBleDevice := ⟨[charBad], []⟩

def dC4ok : BluetoothLEDevice :=
  ⟨GattCommunicationStatus.success,
    [⟨GattCommunicationStatus.success, [char0]⟩,
     ⟨GattCommunicationStatus.success, [charBad]⟩]⟩

def wC4 : WinBleDevice := ⟨[char0, charBad], []⟩

def dC4bad : BluetoothLEDevice := ⟨GattCommunicationStatus.unreachable, []⟩

def di0 : DeviceInformation := ⟨['d', '1'], ['n'], ['a', 'b']⟩

def nearby0 : List DeviceInformation := [di0]

def adapter0 : WinBleAdapter := ⟨DeviceWatcherStatus.started, 4, nearby0⟩

/-! ## Helper lemmas -/

theorem stripColons_idem (cs : List Char) :
    stripColons (stripColons cs) = stripColons cs := by
  simp [stripColons, List.filter_filter]

theorem collectCharacteristics_ok (l : List GattService) (cs : List GattCharacteristic)
    (h : collectCharacteristics l = Except.ok cs) :
    (∀ s ∈ l, s.charsStatus = GattCommunicationStatus.success) ∧
    cs = (l.map GattService.characteristics).flatten := by
  induction l generalizing cs with
  | nil =>
    simp only [collectCharacteristics, Except.ok.injEq] at h
    simp [← h]
  | cons s rest ih =>
    simp only [collectCharacteristics] at h
    by_cases hs : s.charsStatus = GattCommunicationStatus.success
    · rw [if_pos hs] at h
      cases hrec : collectCharacteristics rest with
      | ok cs2 =>
        rw [hrec] at h
        injection h with hh
        obtain ⟨hall, hjoin⟩ := ih cs2 hrec
        constructor
        · intro t ht
          rcases List.mem_cons.mp ht with h1 | h2
          · rw [h1]; exact hs
          · exact hall t h2
        · rw [← hh, hjoin]
          simp
      | error e =>
        rw [hrec] at h
        exact Except.noConfusion h
    · rw [if_neg hs] at h
      exact Except.noConfusion h

theorem collectCharacteristics_error (l : List GattService)
    (h : ∃ s ∈ l, s.charsStatus ≠ GattCommunicationStatus.success) :
    collectCharacteristics l = Except.error () := by
  induction l with
  | nil => simp at h
  | cons s rest ih =>
    simp only [collectCharacteristics]
    by_cases hs : s.charsStatus = GattCommunicationStatus.success
    · rw [if_pos hs]
      obtain ⟨t, ht, hbad⟩ := h
      rcases List.mem_cons.mp ht with h1 | hmem
      · exact absurd (h1 ▸ hbad) (fun hc => hc hs)
      · rw [ih ⟨t, hmem, hbad⟩]
    · rw [if_neg hs]

/-! ## Claims -/

/-- C1: the spec says MacAddressStringToUint strips the colons and parses the
rest as unsigned hexadecimal yielding a 48-bit integer, with 0 on fully
malformed input.  Colon stripping and the malformed-to-0 behaviour hold, but
the 48-bit parse does not: strtoul converts into a 32-bit unsigned long on
the target platform, so a full 48-bit MAC address overflows and is clamped
to ULONG_MAX = 4294967295 instead of the 48-bit value 187723572702975
(0xAABBCCDDEEFF).  The value is then handed to FromBluetoothAddressAsync,
which needs the real 48-bit address, so connecting by parsed address cannot
work: the code is the slip (strtoul where strtoull was needed). -/
theorem macAddress_clamped_to_32_bits :
    MacAddressStringToUint
        ['A', 'A', ':', 'B', 'B', ':', 'C', 'C', ':', 'D', 'D', ':', 'E', 'E', ':', 'F', 'F']
      = 4294967295 ∧
    (4294967295 : Nat) ≠ 187723572702975 ∧
    MacAddressStringToUint ['z', 'z'] = 0 := by
  decide

/-- C9: address parsing is separator insensitive: parsing a colon-separated
address gives the same value as parsing the same text with the colons
removed, since the function itself first removes every colon (and colon
removal is idempotent); in particular the two spellings of the example
address agree. -/
theorem parseAddress_separator_insensitive :
    (∀ cs : List Char,
      MacAddressStringToUint cs = MacAddressStringToUint (stripColons cs)) ∧
    MacAddressStringToUint
        ['A', 'A', ':', 'B', 'B', ':', 'C', 'C', ':', 'D', 'D', ':', 'E', 'E', ':', 'F', 'F']
      = MacAddressStringToUint ['A', 'A', 'B', 'B', 'C', 'C', 'D', 'D', 'E', 'E', 'F', 'F'] := by
  constructor
  · intro cs
    unfold MacAddressStringToUint
    rw [stripColons_idem]
  · decide

/-- C2: decoding after encoding is the identity: for every 128-bit value
(a Guid whose numeric fields are in range), BytesToGuid applied to the
16-byte encoding produced by EncodeUuid (the inverse layout: big-endian
Data1, Data2, Data3 and the 8 Data4 bytes reversed) returns exactly the
original Guid. -/
theorem uuid_decode_encode_roundtrip (g : Guid)
    (h1 : g.data1 < 4294967296) (h2 : g.data2 < 65536) (h3 : g.data3 < 65536) :
    BytesToGuid (EncodeUuid g) = some g := by
  obtain ⟨d1, d2, d3, a0, a1, a2, a3, a4, a5, a6, a7⟩ := g
  simp only [EncodeUuid, BytesToGuid, Option.some.injEq, Guid.mk.injEq, and_true] at *
  omega

theorem uuid_decode_encode_roundtrip_witness :
    BytesToGuid (EncodeUuid guid0) = some guid0 :=
  uuid_decode_encode_roundtrip guid0 (by decide) (by decide) (by decide)

/-- C3 counterexample: the claim says a second Subscribe for the same
characteristic replaces the registered callback, leaving at most one per
characteristic.  On a session with one characteristic whose descriptor
write succeeds, two successful Subscribe calls leave two registered
ValueChanged delegates, not one: the winrt event add method appends and the
returned token is discarded. -/
theorem subscribe_stacks_counterexample :
    handlerCount (Subscribe (Subscribe dev0 cid0 (some 1)).dev cid0 (some 2)).dev guid0 = 2 ∧
    ¬ handlerCount (Subscribe (Subscribe dev0 cid0 (some 1)).dev cid0 (some 2)).dev guid0 ≤ 1 := by
  decide

/-- C3 (amended): a successful Subscribe appends one more ValueChanged
delegate for the characteristic to the registered list, previous
registrations staying in place (registrations stack; nothing is
replaced). -/
theorem subscribe_appends_handler (d : WinBleDevice) (cid : List Nat) (h : Nat)
    (g : Guid) (c : GattCharacteristic)
    (hdec : BytesToGuid cid = some g)
    (hfind : findCharacteristic d.characteristics g = some c)
    (hst : c.writeCccdStatus = GattCommunicationStatus.success) :
    (Subscribe d cid (some h)).dev.valueChangedHandlers
      = d.valueChangedHandlers ++ [(g, h)] ∧
    (Subscribe d cid (some h)).err = none := by
  simp [Subscribe, hdec, hfind, hst]

theorem subscribe_appends_handler_witness :
    (Subscribe dev0 cid0 (some 1)).dev.valueChangedHandlers
      = dev0.valueChangedHandlers ++ [(guid0, 1)] ∧
    (Subscribe dev0 cid0 (some 1)).err = none :=
  subscribe_appends_handler dev0 cid0 1 guid0 char0 (by decide) (by decide) (by decide)

/-- C4: connect-time discovery is all-or-nothing: a constructed session
implies the service enumeration and every per-service characteristic
enumeration returned success, and its cache is exactly the concatenation of
all the characteristics of all the services; any non-success enumeration
status makes the construction fail with the discovery error. -/
theorem connect_discovery_all_or_nothing :
    (∀ (d : BluetoothLEDevice) (w : WinBleDevice), mkWinBleDevice d = Except.ok w →
      d.servicesStatus = GattCommunicationStatus.success ∧
      (∀ s ∈ d.services, s.charsStatus = GattCommunicationStatus.success) ∧
      w.characteristics = (d.services.map GattService.characteristics).flatten) ∧
    (∀ d : BluetoothLEDevice,
      (d.servicesStatus ≠ GattCommunicationStatus.success ∨
        ∃ s ∈ d.services, s.charsStatus ≠ GattCommunicationStatus.success) →
      mkWinBleDevice d = Except.error ()) := by
  constructor
  · intro d w h
    by_cases hs : d.servicesStatus = GattCommunicationStatus.success
    · cases hrec : collectCharacteristics d.services with
      | ok cs =>
        simp only [mkWinBleDevice, GetCharacteristics, if_pos hs, hrec,
          Except.ok.injEq] at h
        obtain ⟨hall, hjoin⟩ := collectCharacteristics_ok d.services cs hrec
        refine ⟨hs, hall, ?_⟩
        rw [← h]
        exact hjoin
      | error e =>
        simp [mkWinBleDevice, GetCharacteristics, if_pos hs, hrec] at h
    · simp [mkWinBleDevice, GetCharacteristics, if_neg hs] at h
  · intro d hbad
    rcases hbad with hs | hex
    · simp [mkWinBleDevice, GetCharacteristics, if_neg hs]
    · by_cases hs : d.servicesStatus = GattCommunicationStatus.success
      · simp [mkWinBleDevice, GetCharacteristics, if_pos hs,
          collectCharacteristics_error d.services hex]
      · simp [mkWinBleDevice, GetCharacteristics, if_neg hs]

theorem connect_discovery_all_or_nothing_witness :
    (dC4ok.servicesStatus = GattCommunicationStatus.success ∧
      (∀ s ∈ dC4ok.services, s.charsStatus = GattCommunicationStatus.success) ∧
      wC4.characteristics = (dC4ok.services.map GattService.characteristics).flatten) ∧
    mkWinBleDevice dC4bad = Except.error () :=
  ⟨connect_discovery_all_or_nothing.1 dC4ok wC4 rfl,
   connect_discovery_all_or_nothing.2 dC4bad (Or.inl (by decide))⟩

/-- C5: a write to a characteristic id whose decoded uuid matches no cached
characteristic throws the lookup error with an empty platform trace (no
platform write is attempted); a write whose platform status is non-success
throws the write error carrying the integer status code, after the single
platform write call. -/
theorem write_unknown_id_and_status_error :
    (∀ (d : WinBleDevice) (cid data : List Nat) (g : Guid),
      BytesToGuid cid = some g →
      (∀ c ∈ d.characteristics, c.uuid ≠ g) →
      WriteToCharacteristic d cid data
        = ⟨d, some BleError.characteristicNotFound, []⟩) ∧
    (∀ (d : WinBleDevice) (cid data : List Nat) (g : Guid) (c : GattCharacteristic),
      BytesToGuid cid = some g →
      findCharacteristic d.characteristics g = some c →
      c.writeValueStatus ≠ GattCommunicationStatus.success →
      WriteToCharacteristic d cid data
        = ⟨d, some (BleError.writeFailed c.writeValueStatus.code),
            [PlatformAction.writeValue g data]⟩) := by
  constructor
  · intro d cid data g hdec hnone
    have hfind : findCharacteristic d.characteristics g = none := by
      simp only [findCharacteristic, List.find?_eq_none, decide_eq_true_eq]
      exact hnone
    simp [WriteToCharacteristic, hdec, hfind]
  · intro d cid data g c hdec hfind hst
    simp [WriteToCharacteristic, hdec, hfind, hst]

theorem write_unknown_id_and_status_error_witness :
    WriteToCharacteristic dev0 cid1 [1, 2]
      = ⟨dev0, some BleError.characteristicNotFound, []⟩ ∧
    WriteToCharacteristic devBad cid1 [1, 2]
      = ⟨devBad, some (BleError.writeFailed charBad.writeValueStatus.code),
          [PlatformAction.writeValue guid1 [1, 2]]⟩ :=
  ⟨write_unknown_id_and_status_error.1 dev0 cid1 [1, 2] guid1 (by decide) (by decide),
   write_unknown_id_and_status_error.2 devBad cid1 [1, 2] guid1 charBad
     (by decide) (by decide) (by decide)⟩

/-- C6: Connect takes exactly one of two paths: when some record of the
watcher table carries the requested address, the connection goes through
the platform id of such a record; when no record does, it goes through the
numeric address obtained by parsing the address text. -/
theorem connect_selects_path :
    (∀ (nearby : List DeviceInformation) (address : List Char),
      (∃ di ∈ nearby, GetDeviceAddress di = address) →
      ∃ di ∈ nearby, GetDeviceAddress di = address ∧
        Connect nearby address = ConnectPath.fromId di.id) ∧
    (∀ (nearby : List DeviceInformation) (address : List Char),
      (∀ di ∈ nearby, GetDeviceAddress di ≠ address) →
      Connect nearby address
        = ConnectPath.fromBluetoothAddress (MacAddressStringToUint address)) := by
  constructor
  · intro nearby address hex
    cases hfind : nearby.find? (fun di => decide (GetDeviceAddress di = address)) with
    | some di =>
      refine ⟨di, List.mem_of_find?_eq_some hfind, ?_, ?_⟩
      · simpa using List.find?_some hfind
      · simp [Connect, hfind]
    | none =>
      obtain ⟨di, hmem, haddr⟩ := hex
      rw [List.find?_eq_none] at hfind
      have := hfind di hmem
      simp [haddr] at this
  · intro nearby address hall
    have hfind : nearby.find? (fun di => decide (GetDeviceAddress di = address)) = none := by
      simp only [List.find?_eq_none, decide_eq_true_eq]
      exact hall
    simp [Connect, hfind]

theorem connect_selects_path_witness :
    (∃ di ∈ nearby0, GetDeviceAddress di = di0.address ∧
      Connect nearby0 di0.address = ConnectPath.fromId di.id) ∧
    Connect nearby0 ['z']
      = ConnectPath.fromBluetoothAddress (MacAddressStringToUint ['z']) :=
  ⟨connect_selects_path.1 nearby0 di0.address ⟨di0, by decide, by decide⟩,
   connect_selects_path.2 nearby0 ['z'] (by decide)⟩

/-- C7: Subscribe writes the Notify configuration-descriptor value first and
registers the ValueChanged callback only when that write succeeds: on a
success status the trace is the descriptor write followed by the
registration; on a non-success status the trace stops at the descriptor
write, the call throws, and the session state is unchanged (no callback
registered). -/
theorem subscribe_descriptor_gates_registration (d : WinBleDevice) (cid : List Nat)
    (h : Nat) (g : Guid) (c : GattCharacteristic)
    (hdec : BytesToGuid cid = some g)
    (hfind : findCharacteristic d.characteristics g = some c) :
    (c.writeCccdStatus = GattCommunicationStatus.success →
      (Subscribe d cid (some h)).trace
        = [PlatformAction.writeCccdNotify g, PlatformAction.registerValueChanged g] ∧
      (Subscribe d cid (some h)).err = none) ∧
    (c.writeCccdStatus ≠ GattCommunicationStatus.success →
      (Subscribe d cid (some h)).trace = [PlatformAction.writeCccdNotify g] ∧
      (Subscribe d cid (some h)).err = some BleError.descriptorWriteFailed ∧
      (Subscribe d cid (some h)).dev = d) := by
  constructor <;> intro hst <;> simp [Subscribe, hdec, hfind, hst]

theorem subscribe_descriptor_gates_registration_witness :
    (Subscribe devBad cid1 (some 5)).trace = [PlatformAction.writeCccdNotify guid1] ∧
    (Subscribe devBad cid1 (some 5)).err = some BleError.descriptorWriteFailed ∧
    (Subscribe devBad cid1 (some 5)).dev = devBad :=
  (subscribe_descriptor_gates_registration devBad cid1 5 guid1 charBad
    (by decide) (by decide)).2 (by decide)

/-- C8: Start is idempotent in the Started state: when the watcher status is
already Started, Start returns the adapter unchanged and performs no
action (no handler registration, no second watcher start). -/
theorem start_idempotent_when_started (a : WinBleAdapter)
    (h : a.watcherStatus = DeviceWatcherStatus.started) :
    Start a = (a, []) := by
  simp [Start, h]

theorem start_idempotent_when_started_witness :
    Start adapter0 = (adapter0, []) :=
  start_idempotent_when_started adapter0 (by decide)

/-- C10: the claim says a Removed event with an unmatched id leaves the
device table unchanged and never erases the end position.  The code has no
end() guard: with an empty table, or a table whose only entry has a
different id, the handler reaches unordered_set erase with the end iterator
(undefined behaviour, modelled as none) instead of leaving the table
unchanged; erasure proper happens only when an entry matches. -/
theorem removedHandler_erase_at_end :
    removedHandler [] ['x'] = none ∧
    removedHandler [di0] ['x'] = none ∧
    removedHandler [di0] di0.id = some [] := by
  decide

end WinBle
